import Mathlib

/-!
Shallow embedding of the dm_g5k cluster lifecycle code
(`dm_g5k/cluster.py`, `dm_g5k/cassandra.py`, `dm_g5k/mongodb.py`,
`dm_g5k/multicluster.py`).

Remote actions (execo `TaktukRemote`, `TaktukPut`, `Remote`,
`SequentialActions`) never raise in the Python code; they only record a
per-host success status (`finished_ok` / `ok`) that the lifecycle code may
or may not inspect.  We model each remote invocation's overall outcome as a
`Bool` supplied by the environment, and record which remote steps were
actually issued in explicit trace structures.  Python exceptions
(`ClusterNotInitializedException`, `MongoDBNotInitializedException`,
`TypeError`) are modelled with `Except`.  In the Python code every mutation
of the state fields happens after the points that can raise, so an
operation that raises leaves the state unchanged; the `Except`-returning
functions reflect this by returning `.error` without a state.
-/

namespace DmG5k

/-- A remote machine, identified by its address (spec: Host is an opaque
network address). -/
abbrev Host := String

/-- Exceptions raised by the lifecycle code: `ClusterNotInitializedException`
(cluster.py, raised by `CassandraCluster._check_initialization`),
`MongoDBNotInitializedException` (mongodb.py), and Python's built-in
`TypeError` for calls with a wrong number of arguments. -/
inductive ClusterError where
  | clusterNotInitialized
  | mongoNotInitialized
  | typeError
deriving Repr, DecidableEq

/-! ## Cassandra cluster state (`cassandra.py`) -/

/-- The mutable boolean state of a `CassandraCluster`
(`initialized`, `running`, `running_cassandra`, cassandra.py lines 32-35). -/
structure CassState where
  initialized : Bool
  running : Bool
  running_cassandra : Bool
deriving Repr, DecidableEq

/-- The state of a freshly constructed `CassandraCluster`: the class-level
defaults `initialized = running = running_cassandra = False`. -/
def cassInit : CassState := ⟨false, false, false⟩

/-- `CassandraCluster._check_initialization` (cassandra.py 229-237):
raises `ClusterNotInitializedException` when `initialized` is false. -/
def cass_check_initialization (s : CassState) : Except ClusterError Unit :=
  if !s.initialized then .error .clusterNotInitialized else .ok ()

/-- Outcomes of the remote actions issued by `CassandraCluster.bootstrap`:
the `dpkg -s` package check, the `SequentialActions [rm_dirs, put_tar,
tar_xf]` transfer/unpack pipeline, and the `SequentialActions [mv_base_dir,
mkdirs, chmods]` install pipeline.  The Python code reads only the package
check's status. -/
structure CassBootstrapEnv where
  packages_ok : Bool
  transfer_seq_ok : Bool
  install_seq_ok : Bool
deriving Repr, DecidableEq

/-- Which remote steps `CassandraCluster.bootstrap` actually issued. -/
structure CassBootstrapTrace where
  ran_package_install : Bool
  ran_transfer_seq : Bool
  ran_install_seq : Bool
deriving Repr, DecidableEq

/-- `CassandraCluster.bootstrap` (cassandra.py 93-150).  The package
install action is issued only when the package check fails (line 108); its
own failure is merely logged (line 115).  The transfer/unpack
`SequentialActions` (line 134) and the install `SequentialActions`
(line 150) are both issued unconditionally and their statuses are never
read, so bootstrap never raises and never skips the install pipeline; the
state fields are untouched. -/
def cassBootstrap (s : CassState) (env : CassBootstrapEnv) :
    Except ClusterError (CassState × CassBootstrapTrace) :=
  .ok (s, ⟨!env.packages_ok, true, true⟩)

/-- `CassandraCluster.start` (cassandra.py 258-275).  `ok` is
`proc.finished_ok` of the `TaktukRemote` start command.  The returned
`Bool` records whether the remote start command was issued.  Raises via
`_check_initialization`; returns early (command not issued) when
`running_cassandra` is already true; advances `running`/`running_cassandra`
only when the command finished ok on all hosts. -/
def cassStart (s : CassState) (ok : Bool) :
    Except ClusterError (CassState × Bool) :=
  if !s.initialized then .error .clusterNotInitialized
  else if s.running_cassandra then .ok (s, false)
  else if ok then .ok ({ s with running_cassandra := true, running := true }, true)
  else .ok (s, true)

/-- `CassandraCluster.stop` (cassandra.py 302-310): after the
initialization check it unconditionally sets `running_cassandra` and
`running` to false (no remote command is issued at all; the body ends in
`pass`). -/
def cassStop (s : CassState) : Except ClusterError CassState :=
  if !s.initialized then .error .clusterNotInitialized
  else .ok { s with running_cassandra := false, running := false }

/-- `CassandraCluster.clean_logs` (cassandra.py 312-327).  If `running`,
stops the cluster and remembers to restart; issues the `rm -rf` of the
logs dir (status never read); restarts with `start` when it had stopped.
`startOk` is the `finished_ok` of the restart's remote command. -/
def cassCleanLogs (s : CassState) (startOk : Bool) :
    Except ClusterError CassState :=
  if s.running then
    match cassStop s with
    | .error e => .error e
    | .ok s1 =>
      match cassStart s1 startOk with
      | .error e => .error e
      | .ok (s2, _) => .ok s2
  else .ok s

/-- `CassandraCluster.clean` (cassandra.py 329-336): stops first when
`running`, then calls `clean_logs`.  It performs no initialization check
of its own and never touches `initialized`. -/
def cassClean (s : CassState) (startOk : Bool) : Except ClusterError CassState :=
  match (if s.running then cassStop s else Except.ok s) with
  | .error e => .error e
  | .ok s1 => cassCleanLogs s1 startOk

/-- `CassandraCluster._pre_initialize` (cassandra.py 171-181): if
`initialized`, stop when `running` and then `clean`; otherwise
`__force_clean` (an empty stub); finally set `initialized := false`. -/
def cassPreInitialize (s : CassState) (startOk : Bool) :
    Except ClusterError CassState :=
  match (if s.initialized then
           match (if s.running then cassStop s else Except.ok s) with
           | .error e => .error e
           | .ok s1 => cassClean s1 startOk
         else Except.ok s) with
  | .error e => .error e
  | .ok s2 => .ok { s2 with initialized := false }

/-- `CassandraCluster.initialize` (cassandra.py 152-169).  After
`_pre_initialize`, the configuration materialization steps
(`_copy_base_conf`, `_create_nodes_and_seeds_conf`) only touch local
files, not the state fields.  For each host group `_copy_conf` pushes the
config directory; `pushOk` lists the per-group `finished_ok` statuses and
the returned list records, per group, whether the "Error while copying
configuration" warning was logged (cassandra.py 253-254) — a push failure
is only logged, never raised.  Finally `initialized := true`. -/
def cassInitialize (s : CassState) (startOk : Bool) (pushOk : List Bool) :
    Except ClusterError (CassState × List Bool) :=
  match cassPreInitialize s startOk with
  | .error e => .error e
  | .ok s1 => .ok ({ s1 with initialized := true }, pushOk.map (fun b => !b))

/-! ## Lifecycle operation sequences (Cassandra) -/

/-- One public lifecycle operation on a `CassandraCluster`, together with
the environment (remote-action outcomes) of that call. -/
inductive CassOp where
  | bootstrap (env : CassBootstrapEnv)
  | initCluster (startOk : Bool) (pushOk : List Bool)
  | start (ok : Bool)
  | stop
  | clean (startOk : Bool)
  | cleanLogs (startOk : Bool)
deriving Repr

/-- Apply one lifecycle operation.  An operation that raises leaves the
state unchanged (in the Python code all mutations of the state fields
happen after the raising points). -/
def cassStep (s : CassState) (op : CassOp) : CassState :=
  match op with
  | .bootstrap env =>
      match cassBootstrap s env with | .ok (s1, _) => s1 | .error _ => s
  | .initCluster a b =>
      match cassInitialize s a b with | .ok (s1, _) => s1 | .error _ => s
  | .start ok =>
      match cassStart s ok with | .ok (s1, _) => s1 | .error _ => s
  | .stop =>
      match cassStop s with | .ok s1 => s1 | .error _ => s
  | .clean a =>
      match cassClean s a with | .ok s1 => s1 | .error _ => s
  | .cleanLogs a =>
      match cassCleanLogs s a with | .ok s1 => s1 | .error _ => s

/-- The state after running a sequence of lifecycle operations from the
constructed state. -/
def cassRun (ops : List CassOp) : CassState := ops.foldl cassStep cassInit

/-- A state is reachable when some sequence of lifecycle operations
produces it from the constructed state. -/
def CassReachable (s : CassState) : Prop := ∃ ops, cassRun ops = s

/-- The lifecycle invariant: `running` mirrors the internal
`running_cassandra` flag, and a running cluster is initialized. -/
def CassInv (s : CassState) : Prop :=
  s.running = s.running_cassandra ∧ (s.running = true → s.initialized = true)

lemma cassStep_inv (s : CassState) (op : CassOp) (h : CassInv s) :
    CassInv (cassStep s op) := by
  obtain ⟨i, r, rc⟩ := s
  obtain ⟨hrc, hri⟩ := h
  cases op with
  | bootstrap env =>
      exact ⟨hrc, hri⟩
  | initCluster a b =>
      cases i <;> cases r <;> cases rc <;>
        simp_all [cassStep, cassInitialize, cassPreInitialize, cassClean,
          cassCleanLogs, cassStop, cassStart, CassInv]
  | start ok =>
      cases i <;> cases r <;> cases rc <;> cases ok <;>
        simp_all [cassStep, cassStart, CassInv]
  | stop =>
      cases i <;> cases r <;> cases rc <;>
        simp_all [cassStep, cassStop, CassInv]
  | clean a =>
      cases i <;> cases r <;> cases rc <;> cases a <;>
        simp_all [cassStep, cassClean, cassCleanLogs, cassStop, cassStart,
          CassInv]
  | cleanLogs a =>
      cases i <;> cases r <;> cases rc <;> cases a <;>
        simp_all [cassStep, cassCleanLogs, cassStop, cassStart, CassInv]

lemma cassRun_inv_aux (ops : List CassOp) :
    ∀ s : CassState, CassInv s → CassInv (ops.foldl cassStep s) := by
  induction ops with
  | nil => intro s h; exact h
  | cons op ops ih => intro s h; exact ih _ (cassStep_inv s op h)

lemma cassRun_inv (ops : List CassOp) : CassInv (cassRun ops) :=
  cassRun_inv_aux ops cassInit ⟨rfl, by intro h; cases h⟩

lemma cassReachable_inv (s : CassState) (h : CassReachable s) : CassInv s := by
  obtain ⟨ops, rfl⟩ := h
  exact cassRun_inv ops

/-! ## MongoDB cluster state (`mongodb.py`) -/

/-- The mutable boolean state of a `MongoDBCluster`
(`initialized`, `running`, `running_mongodb`, mongodb.py lines 44-47). -/
structure MongoState where
  initialized : Bool
  running : Bool
  running_mongodb : Bool
deriving Repr, DecidableEq

/-- The state of a freshly constructed `MongoDBCluster`. -/
def mongoInit : MongoState := ⟨false, false, false⟩

/-- `MongoDBCluster._check_initialization` (mongodb.py 213-221): raises
`MongoDBNotInitializedException` when `initialized` is false. -/
def mongo_check_initialization (s : MongoState) : Except ClusterError Unit :=
  if !s.initialized then .error .mongoNotInitialized else .ok ()

/-- Outcomes of the remote actions issued by `MongoDBCluster.bootstrap`.
The Python code never reads any of them. -/
structure MongoBootstrapEnv where
  put_ok : Bool
  tar_ok : Bool
deriving Repr, DecidableEq

/-- Which remote steps `MongoDBCluster.bootstrap` actually issued. -/
structure MongoBootstrapTrace where
  ran_rm_dirs : Bool
  ran_put_tar : Bool
  ran_tar_xf : Bool
  ran_mv_base_dir : Bool
  ran_mkdir_data : Bool
  ran_mkdir_conf : Bool
deriving Repr, DecidableEq

/-- `MongoDBCluster.bootstrap` (mongodb.py 102-145): removes prior dirs,
puts and unpacks the tar file, moves it to the base dir and creates the
data and conf dirs.  Every `action.run()` is issued unconditionally and no
status is ever inspected, so bootstrap never raises and never skips the
mkdir steps; the state fields are untouched. -/
def mongoBootstrap (s : MongoState) (env : MongoBootstrapEnv) :
    Except ClusterError (MongoState × MongoBootstrapTrace) :=
  .ok (s, ⟨true, true, true, true, true, true⟩)

/-- `MongoDBCluster.start` (mongodb.py 241-265).  `ok` is
`proc.finished_ok` of the `TaktukRemote` `mongod` start command; the
returned `Bool` records whether the command was issued. -/
def mongoStart (s : MongoState) (ok : Bool) :
    Except ClusterError (MongoState × Bool) :=
  if !s.initialized then .error .mongoNotInitialized
  else if s.running_mongodb then .ok (s, false)
  else if ok then .ok ({ s with running_mongodb := true, running := true }, true)
  else .ok (s, true)

/-- `MongoDBCluster.stop` (mongodb.py 285-297): after the initialization
check it issues the `mongod --shutdown` command, whose per-host result
`cmd_ok` is never read, and unconditionally sets `running_mongodb` and
`running` to false. -/
def mongoStop (s : MongoState) (cmd_ok : Bool) : Except ClusterError MongoState :=
  if !s.initialized then .error .mongoNotInitialized
  else
    let _ := cmd_ok
    .ok { s with running_mongodb := false, running := false }

/-- Outcomes of the remote stop/start commands that the clean operations
may issue. -/
structure MongoEnv where
  stop_ok : Bool
  start_ok : Bool
deriving Repr, DecidableEq

/-- `MongoDBCluster.clean_logs` (mongodb.py 299-314): stop-if-running,
remove the log file, restart if it had stopped. -/
def mongoCleanLogs (s : MongoState) (env : MongoEnv) :
    Except ClusterError MongoState :=
  if s.running then
    match mongoStop s env.stop_ok with
    | .error e => .error e
    | .ok s1 =>
      match mongoStart s1 env.start_ok with
      | .error e => .error e
      | .ok (s2, _) => .ok s2
  else .ok s

/-- `MongoDBCluster.clean_data` (mongodb.py 316-334): the body checks
`running` twice (stop-if-running, then a second stop-and-restart guard),
removes the data dir, and restarts when the second guard fired. -/
def mongoCleanData (s : MongoState) (env : MongoEnv) :
    Except ClusterError MongoState :=
  match (if s.running then mongoStop s env.stop_ok else Except.ok s) with
  | .error e => .error e
  | .ok s1 =>
    if s1.running then
      match mongoStop s1 env.stop_ok with
      | .error e => .error e
      | .ok s2 =>
        match mongoStart s2 env.start_ok with
        | .error e => .error e
        | .ok (s3, _) => .ok s3
    else .ok s1

/-- `MongoDBCluster.clean` (mongodb.py 336-344): stop-if-running, then
`clean_logs`, then `clean_data`.  No initialization check of its own and
`initialized` is never touched. -/
def mongoClean (s : MongoState) (env : MongoEnv) :
    Except ClusterError MongoState :=
  match (if s.running then mongoStop s env.stop_ok else Except.ok s) with
  | .error e => .error e
  | .ok s1 =>
    match mongoCleanLogs s1 env with
    | .error e => .error e
    | .ok s2 => mongoCleanData s2 env

/-- `MongoDBCluster._pre_initialize` (mongodb.py 166-176). -/
def mongoPreInitialize (s : MongoState) (env : MongoEnv) :
    Except ClusterError MongoState :=
  match (if s.initialized then
           match (if s.running then mongoStop s env.stop_ok else Except.ok s) with
           | .error e => .error e
           | .ok s1 => mongoClean s1 env
         else Except.ok s) with
  | .error e => .error e
  | .ok s2 => .ok { s2 with initialized := false }

/-- `MongoDBCluster.initialize` (mongodb.py 147-164), analogous to the
Cassandra one: per-group config-push failures (`_copy_conf`,
mongodb.py 236-239) are only logged; the returned list records the
per-group warnings; `initialized := true` at the end. -/
def mongoInitialize (s : MongoState) (env : MongoEnv) (pushOk : List Bool) :
    Except ClusterError (MongoState × List Bool) :=
  match mongoPreInitialize s env with
  | .error e => .error e
  | .ok s1 => .ok ({ s1 with initialized := true }, pushOk.map (fun b => !b))

/-- One public lifecycle operation on a `MongoDBCluster` with its
environment. -/
inductive MongoOp where
  | bootstrap (env : MongoBootstrapEnv)
  | initCluster (env : MongoEnv) (pushOk : List Bool)
  | start (ok : Bool)
  | stop (ok : Bool)
  | clean (env : MongoEnv)
  | cleanLogs (env : MongoEnv)
  | cleanData (env : MongoEnv)
deriving Repr

/-- Apply one MongoDB lifecycle operation; a raising operation leaves the
state unchanged. -/
def mongoStep (s : MongoState) (op : MongoOp) : MongoState :=
  match op with
  | .bootstrap env =>
      match mongoBootstrap s env with | .ok (s1, _) => s1 | .error _ => s
  | .initCluster a b =>
      match mongoInitialize s a b with | .ok (s1, _) => s1 | .error _ => s
  | .start ok =>
      match mongoStart s ok with | .ok (s1, _) => s1 | .error _ => s
  | .stop ok =>
      match mongoStop s ok with | .ok s1 => s1 | .error _ => s
  | .clean env =>
      match mongoClean s env with | .ok s1 => s1 | .error _ => s
  | .cleanLogs env =>
      match mongoCleanLogs s env with | .ok s1 => s1 | .error _ => s
  | .cleanData env =>
      match mongoCleanData s env with | .ok s1 => s1 | .error _ => s

/-- The state after a sequence of MongoDB lifecycle operations from the
constructed state. -/
def mongoRun (ops : List MongoOp) : MongoState := ops.foldl mongoStep mongoInit

/-- Reachability for MongoDB cluster states. -/
def MongoReachable (s : MongoState) : Prop := ∃ ops, mongoRun ops = s

/-- The MongoDB lifecycle invariant. -/
def MongoInv (s : MongoState) : Prop :=
  s.running = s.running_mongodb ∧ (s.running = true → s.initialized = true)

lemma mongoStep_inv (s : MongoState) (op : MongoOp) (h : MongoInv s) :
    MongoInv (mongoStep s op) := by
  obtain ⟨i, r, rm⟩ := s
  obtain ⟨hrm, hri⟩ := h
  cases op with
  | bootstrap env =>
      exact ⟨hrm, hri⟩
  | initCluster a b =>
      obtain ⟨so, t0⟩ := a
      cases i <;> cases r <;> cases rm <;>
        simp_all [mongoStep, mongoInitialize, mongoPreInitialize, mongoClean,
          mongoCleanLogs, mongoCleanData, mongoStop, mongoStart, MongoInv]
  | start ok =>
      cases i <;> cases r <;> cases rm <;> cases ok <;>
        simp_all [mongoStep, mongoStart, MongoInv]
  | stop ok =>
      cases i <;> cases r <;> cases rm <;>
        simp_all [mongoStep, mongoStop, MongoInv]
  | clean env =>
      obtain ⟨so, t0⟩ := env
      cases i <;> cases r <;> cases rm <;> cases so <;> cases t0 <;>
        simp_all [mongoStep, mongoClean, mongoCleanLogs, mongoCleanData,
          mongoStop, mongoStart, MongoInv]
  | cleanLogs env =>
      obtain ⟨so, t0⟩ := env
      cases i <;> cases r <;> cases rm <;> cases so <;> cases t0 <;>
        simp_all [mongoStep, mongoCleanLogs, mongoStop, mongoStart, MongoInv]
  | cleanData env =>
      obtain ⟨so, t0⟩ := env
      cases i <;> cases r <;> cases rm <;> cases so <;> cases t0 <;>
        simp_all [mongoStep, mongoCleanData, mongoStop, mongoStart, MongoInv]

lemma mongoRun_inv_aux (ops : List MongoOp) :
    ∀ s : MongoState, MongoInv s → MongoInv (ops.foldl mongoStep s) := by
  induction ops with
  | nil => intro s h; exact h
  | cons op ops ih => intro s h; exact ih _ (mongoStep_inv s op h)

lemma mongoRun_inv (ops : List MongoOp) : MongoInv (mongoRun ops) :=
  mongoRun_inv_aux ops mongoInit ⟨rfl, by intro h; cases h⟩

lemma mongoReachable_inv (s : MongoState) (h : MongoReachable s) :
    MongoInv s := by
  obtain ⟨ops, rfl⟩ := h
  exact mongoRun_inv ops

/-! ## Cluster topology (`cassandra.py` 75-80, `mongodb.py` 87-89) -/

/-- The node/seed/master designation computed by `CassandraCluster.__init__`. -/
structure CassTopology where
  hosts : List Host
  seeds : List Host
  master : Host
deriving Repr, DecidableEq

/-- `CassandraCluster.__init__` (cassandra.py 75-80): `self.hosts = hosts`,
`self.seeds = self.hosts[0:3]` (a Python slice, i.e. `List.take 3`) and
`self.master = self.hosts[0]` (requires a non-empty host list). -/
def cassMakeTopology (hosts : List Host) (h : hosts ≠ []) : CassTopology :=
  { hosts := hosts, seeds := hosts.take 3, master := hosts.head h }

/-- `MongoDBCluster.__init__` (mongodb.py 87-89): `self.master = hosts[0]`. -/
def mongoMaster (hosts : List Host) (h : hosts ≠ []) : Host := hosts.head h

/-! ## MultiCluster (`multicluster.py`) -/

/-- The part of a member cluster's state that its `bootstrap` method
affects. -/
structure MemberCluster where
  bootstrapped : Bool
deriving Repr, DecidableEq

/-- A call of a member cluster's `bootstrap` method with the given
positional arguments.  `Cluster.bootstrap(self, dist_file)` (cluster.py
26-34, and both concrete overrides) takes exactly one argument besides
`self`; Python raises `TypeError` before the method body runs when the
number of arguments does not match. -/
def clusterBootstrapCall (c : MemberCluster) (args : List String) :
    Except ClusterError MemberCluster :=
  if args.length = 1 then .ok { c with bootstrapped := true }
  else .error .typeError

/-- The loop of `MultiCluster.bootstrap` (multicluster.py 13-15):
`for c in self.clusters: c.bootstrap()` — each member's bootstrap is
invoked with an empty argument list; an exception aborts the loop. -/
def multiClusterBootstrapLoop :
    List MemberCluster → Except ClusterError (List MemberCluster)
  | [] => .ok []
  | c :: rest =>
    match clusterBootstrapCall c [] with
    | .error e => .error e
    | .ok c1 =>
      match multiClusterBootstrapLoop rest with
      | .error e => .error e
      | .ok rest1 => .ok (c1 :: rest1)

/-- `MultiCluster.bootstrap` (multicluster.py 13-15): the `dist_file`
parameter is received but never forwarded to the members. -/
def multiClusterBootstrap (clusters : List MemberCluster) (dist_file : String) :
    Except ClusterError (List MemberCluster) :=
  let _ := dist_file
  multiClusterBootstrapLoop clusters

/-! ## Claim theorems -/

/-- Claim C1: for every sequence of lifecycle operations (bootstrap,
initialize, start, stop, clean, cleanLogs) applied to a Cassandra cluster
from its constructed state, the resulting state satisfies
`running = true → initialized = true`. -/
theorem cass_running_implies_initialized (ops : List CassOp)
    (h : (cassRun ops).running = true) : (cassRun ops).initialized = true :=
  (cassRun_inv ops).2 h

/-- Witness for C1 at the concrete operation sequence
`[initialize, start]` whose final state is running. -/
theorem cass_running_implies_initialized_witness :
    (cassRun [CassOp.initCluster true [], CassOp.start true]).initialized
      = true :=
  cass_running_implies_initialized
    [CassOp.initCluster true [], CassOp.start true] (by decide)

/-- Claim C2 (evaluation at the failing input): starting from the state
reached by a successful `initialize` followed by a successful `start`
(`initialized = running = running_cassandra = true`), `clean()` completes
without raising, leaves `running = false`, but leaves `initialized = true`:
neither `CassandraCluster.clean` nor any function it calls ever assigns
`initialized` (only the overridden abstract `Cluster.clean` body would).
The MongoDB implementation behaves the same way. -/
theorem clean_keeps_initialized_true :
    cassClean ⟨true, true, true⟩ true = .ok ⟨true, false, false⟩ ∧
    mongoClean ⟨true, true, true⟩ ⟨true, true⟩ = .ok ⟨true, false, false⟩ :=
  ⟨rfl, rfl⟩

/-- Claim C3 (counterexample): with the transfer/unpack pipeline failing
(`transfer_seq_ok = false`), `bootstrap` does not raise any error — it
returns normally — and the install pipeline (`mv`/`mkdir`/`chmod`) is
still issued (`ran_install_seq = true`, the third trace component).  No
`RemoteActionError` exists anywhere in the code. -/
theorem cass_bootstrap_no_abort_cex :
    cassBootstrap cassInit ⟨true, false, true⟩ =
      .ok (cassInit, ⟨false, true, true⟩) :=
  rfl

/-- Claim C3 (amended): when the archive-transfer or unpack step fails,
`bootstrap` raises nothing and still issues the subsequent mkdir/install
step on the hosts — the statuses of the transfer and unpack actions are
never inspected.  This holds for both the Cassandra and the MongoDB
implementation. -/
theorem bootstrap_ignores_transfer_failure
    (s : CassState) (env : CassBootstrapEnv)
    (t : MongoState) (menv : MongoBootstrapEnv)
    (h : env.transfer_seq_ok = false) :
    (∃ tr : CassBootstrapTrace,
        cassBootstrap s env = .ok (s, tr) ∧ tr.ran_install_seq = true) ∧
    (∃ mtr : MongoBootstrapTrace,
        mongoBootstrap t menv = .ok (t, mtr) ∧
        mtr.ran_mv_base_dir = true ∧ mtr.ran_mkdir_data = true ∧
        mtr.ran_mkdir_conf = true) :=
  ⟨⟨⟨!env.packages_ok, true, true⟩, rfl, rfl⟩,
   ⟨⟨true, true, true, true, true, true⟩, rfl, rfl, rfl, rfl⟩⟩

/-- Witness for C3's amended theorem at concrete inputs. -/
theorem bootstrap_ignores_transfer_failure_witness :
    (∃ tr : CassBootstrapTrace,
        cassBootstrap cassInit ⟨true, false, true⟩ = .ok (cassInit, tr) ∧
        tr.ran_install_seq = true) ∧
    (∃ mtr : MongoBootstrapTrace,
        mongoBootstrap mongoInit ⟨true, true⟩ = .ok (mongoInit, mtr) ∧
        mtr.ran_mv_base_dir = true ∧ mtr.ran_mkdir_data = true ∧
        mtr.ran_mkdir_conf = true) :=
  bootstrap_ignores_transfer_failure cassInit ⟨true, false, true⟩
    mongoInit ⟨true, true⟩ rfl

/-- Claim C4 (counterexample): on a freshly constructed, never-initialized
Cassandra cluster, `clean()` does not raise: it completes and returns the
state unchanged, because `CassandraCluster.clean` never calls
`_check_initialization`. -/
theorem cass_clean_unchecked_cex : cassClean cassInit true = .ok cassInit :=
  rfl

/-- Claim C4 (amended): on a cluster on which `initialize()` has never
been called (so `initialized = false` and, the cluster never having been
started, `running = false`), `start()` and `stop()` raise the
not-initialized exception, but `clean()` performs no initialization check
and completes without raising, leaving the state unchanged — in both the
Cassandra and the MongoDB implementation. -/
theorem not_initialized_behaviour
    (s : CassState) (ok k : Bool) (t : MongoState) (mok : Bool)
    (env : MongoEnv)
    (hs : s.initialized = false) (hr : s.running = false)
    (ht : t.initialized = false) (htr : t.running = false) :
    cassStart s ok = .error .clusterNotInitialized ∧
    cassStop s = .error .clusterNotInitialized ∧
    cassClean s k = .ok s ∧
    mongoStart t mok = .error .mongoNotInitialized ∧
    mongoStop t mok = .error .mongoNotInitialized ∧
    mongoClean t env = .ok t := by
  obtain ⟨i, r, rc⟩ := s
  obtain ⟨mi, mr, mm⟩ := t
  subst hs hr ht htr
  refine ⟨rfl, rfl, rfl, rfl, rfl, ?_⟩
  simp [mongoClean, mongoCleanLogs, mongoCleanData]

/-- Witness for C4's amended theorem at the freshly constructed states. -/
theorem not_initialized_behaviour_witness :
    cassStart cassInit true = .error .clusterNotInitialized ∧
    cassStop cassInit = .error .clusterNotInitialized ∧
    cassClean cassInit false = .ok cassInit ∧
    mongoStart mongoInit true = .error .mongoNotInitialized ∧
    mongoStop mongoInit true = .error .mongoNotInitialized ∧
    mongoClean mongoInit ⟨true, true⟩ = .ok mongoInit :=
  not_initialized_behaviour cassInit true false mongoInit true
    ⟨true, true⟩ rfl rfl rfl rfl

/-- Claim C5: `start()` on an initialized, non-running (reachable) cluster
issues the remote start command and sets `running = true` exactly when the
command reports success on all hosts; on failure it does not raise and
leaves the state unchanged (`running = false`). -/
theorem cass_start_advances_iff_all_hosts_ok (s : CassState)
    (h : CassReachable s) (hi : s.initialized = true)
    (hr : s.running = false) (ok : Bool) :
    cassStart s ok =
      .ok (if ok = true
             then { s with running := true, running_cassandra := true }
             else s,
           true) := by
  obtain ⟨hrc, _⟩ := cassReachable_inv s h
  have hc : s.running_cassandra = false := by rw [← hrc, hr]
  cases ok <;> simp [cassStart, hi, hc]

/-- Witness for C5 at the initialized state reached by one `initialize`,
with a successful remote start. -/
theorem cass_start_advances_iff_all_hosts_ok_witness :
    cassStart ⟨true, false, false⟩ true = .ok (⟨true, true, true⟩, true) :=
  cass_start_advances_iff_all_hosts_ok ⟨true, false, false⟩
    ⟨[CassOp.initCluster true []], rfl⟩ rfl rfl true

/-- Claim C6: `stop()` on an initialized (reachable) cluster never raises
and always leaves `running = false`, whatever the per-host result of the
remote stop command (MongoDB issues `mongod --shutdown` and ignores its
result; the Cassandra stop issues no command at all); when the cluster is
not running, `stop()` leaves the state exactly unchanged. -/
theorem stop_never_raises_and_clears_running (s : MongoState)
    (hs : MongoReachable s) (hi : s.initialized = true) (ok : Bool)
    (t : CassState) (ht : CassReachable t) (hti : t.initialized = true) :
    mongoStop s ok = .ok { s with running := false, running_mongodb := false } ∧
    (s.running = false → mongoStop s ok = .ok s) ∧
    cassStop t = .ok { t with running := false, running_cassandra := false } ∧
    (t.running = false → cassStop t = .ok t) := by
  obtain ⟨hrm, _⟩ := mongoReachable_inv s hs
  obtain ⟨hrc, _⟩ := cassReachable_inv t ht
  refine ⟨by simp [mongoStop, hi], ?_, by simp [cassStop, hti], ?_⟩
  · intro hr
    have hm : s.running_mongodb = false := by rw [← hrm, hr]
    obtain ⟨a, b, c⟩ := s
    simp_all [mongoStop]
  · intro hr
    have hc : t.running_cassandra = false := by rw [← hrc, hr]
    obtain ⟨a, b, c⟩ := t
    simp_all [cassStop]

/-- Witness for C6 at initialized, non-running reachable states: stop is a
no-op on the state and raises nothing. -/
theorem stop_never_raises_and_clears_running_witness :
    mongoStop ⟨true, false, false⟩ false = .ok ⟨true, false, false⟩ ∧
    cassStop ⟨true, false, false⟩ = .ok ⟨true, false, false⟩ :=
  ⟨(stop_never_raises_and_clears_running ⟨true, false, false⟩
      ⟨[MongoOp.initCluster ⟨true, true⟩ []], rfl⟩ rfl false
      ⟨true, false, false⟩ ⟨[CassOp.initCluster true []], rfl⟩ rfl).2.1 rfl,
   (stop_never_raises_and_clears_running ⟨true, false, false⟩
      ⟨[MongoOp.initCluster ⟨true, true⟩ []], rfl⟩ rfl false
      ⟨true, false, false⟩ ⟨[CassOp.initCluster true []], rfl⟩ rfl).2.2.2 rfl⟩

lemma cassPreInitialize_ok (s : CassState) (k : Bool) :
    ∃ s1, cassPreInitialize s k = .ok s1 := by
  obtain ⟨i, r, rc⟩ := s
  cases i <;> cases r <;> cases rc <;> exact ⟨_, rfl⟩

/-- Claim C7: `initialize()` completes and sets `initialized = true` even
when the config push to some resource group fails; the failing group only
gets the "Error while copying configuration" warning (the returned warning
list holds `true` exactly at the failed groups). -/
theorem cass_initialize_tolerates_push_failure (s : CassState) (k : Bool)
    (pushOk : List Bool) (hp : false ∈ pushOk) :
    ∃ s1, cassInitialize s k pushOk =
        .ok (s1, pushOk.map (fun b => !b)) ∧
      s1.initialized = true ∧ true ∈ pushOk.map (fun b => !b) := by
  obtain ⟨s0, h0⟩ := cassPreInitialize_ok s k
  refine ⟨{ s0 with initialized := true }, ?_, rfl, ?_⟩
  · simp [cassInitialize, h0]
  · exact List.mem_map.mpr ⟨false, hp, rfl⟩

/-- Witness for C7 with two resource groups of which the second push
fails. -/
theorem cass_initialize_tolerates_push_failure_witness :
    ∃ s1, cassInitialize cassInit true [true, false] =
        .ok (s1, [true, false].map (fun b => !b)) ∧
      s1.initialized = true ∧ true ∈ [true, false].map (fun b => !b) :=
  cass_initialize_tolerates_push_failure cassInit true [true, false]
    (by decide)

/-- Claim C8: after a `start()` call whose remote command succeeded on all
hosts, a second `start()` without an intervening `stop()` returns the state
unchanged and does not issue the remote start command again (the returned
flag is `false`). -/
theorem cass_start_twice_noop (s s1 : CassState) (b ok2 : Bool)
    (h : cassStart s true = .ok (s1, b)) :
    cassStart s1 ok2 = .ok (s1, false) := by
  obtain ⟨i, r, rc⟩ := s
  cases i <;> cases r <;> cases rc <;> simp_all [cassStart] <;>
    (obtain ⟨h1, -⟩ := h; subst h1; simp [cassStart])

/-- Witness for C8: the second start after a successful one. -/
theorem cass_start_twice_noop_witness :
    cassStart ⟨true, true, true⟩ false = .ok (⟨true, true, true⟩, false) :=
  cass_start_twice_noop ⟨true, false, false⟩ ⟨true, true, true⟩ true false rfl

/-- Claim C9: for every non-empty host list, the constructed topology has
`master = hosts[0]` and `seeds = hosts[0:min(n,3)]`; for `n = 1` the seeds
are exactly `[hosts[0]] = [master]`; the MongoDB constructor also picks
`master = hosts[0]`. -/
theorem topology_master_and_seeds (hosts : List Host) (h : hosts ≠ []) :
    (cassMakeTopology hosts h).master = hosts.head h ∧
    (cassMakeTopology hosts h).seeds = hosts.take (min hosts.length 3) ∧
    (hosts.length = 1 →
      (cassMakeTopology hosts h).seeds = [(cassMakeTopology hosts h).master]) ∧
    mongoMaster hosts h = hosts.head h := by
  refine ⟨rfl, ?_, ?_, rfl⟩
  · show hosts.take 3 = hosts.take (min hosts.length 3)
    exact List.take_eq_take.mpr (by omega)
  · intro h1
    obtain ⟨a, rfl⟩ := List.length_eq_one.mp h1
    rfl

/-- Witness for C9 on the single-host list. -/
theorem topology_master_and_seeds_witness :
    (cassMakeTopology ["n0"] (by decide)).seeds
      = [(cassMakeTopology ["n0"] (by decide)).master] :=
  (topology_master_and_seeds ["n0"] (by decide)).2.2.1 rfl

/-- Claim C10: on any non-empty member list, `MultiCluster.bootstrap`
raises `TypeError` (the first member's `bootstrap` is invoked with no
argument although it requires one; `dist_file` is never forwarded), so no
member completes bootstrapping. -/
theorem multicluster_bootstrap_type_error (clusters : List MemberCluster)
    (dist_file : String) (h : clusters ≠ []) :
    multiClusterBootstrap clusters dist_file = .error .typeError := by
  cases clusters with
  | nil => exact absurd rfl h
  | cons c rest => rfl

/-- Witness for C10 with one member cluster. -/
theorem multicluster_bootstrap_type_error_witness :
    multiClusterBootstrap [⟨false⟩] "cassandra.tar.gz" = .error .typeError :=
  multicluster_bootstrap_type_error [⟨false⟩] "cassandra.tar.gz" (by decide)
